import Mathlib

/-
Verification of the option-payoff and Black-Scholes pricing kernel of the
repository option-payoffs-app (files option-payoffs-app.py and options-EN.py).

The numeric computations of the scripts are shallowly embedded over the real
numbers: numpy array operations are elementwise, so scalar functions (and,
where a claim speaks about arrays, List.map over the price grid) model them.
Division that the scripts perform without any guard is additionally embedded
in a checked form returning Option, to reason about the time-to-expiry = 0
edge case.
-/

open Real MeasureTheory ProbabilityTheory Set

namespace OptionPayoffs

/-- call_payoff from option-payoffs-app.py line 41: np.maximum(S - K, 0). -/
def call_payoff (S K : ℝ) : ℝ := max (S - K) 0

/-- put_payoff from option-payoffs-app.py line 44: np.maximum(K - S, 0). -/
def put_payoff (S K : ℝ) : ℝ := max (K - S) 0

/-- binary_call_payoff from option-payoffs-app.py line 47: (S > K).astype(int). -/
noncomputable def binary_call_payoff (S K : ℝ) : ℤ := if K < S then 1 else 0

/-- binary_put_payoff from option-payoffs-app.py line 50: (S < K).astype(int). -/
noncomputable def binary_put_payoff (S K : ℝ) : ℤ := if S < K then 1 else 0

/-- straddle_payoff from option-payoffs-app.py line 293: call + put (elementwise
over S_range; here at one price point). -/
def straddle_payoff (S K : ℝ) : ℝ := call_payoff S K + put_payoff S K

/-- The standard normal cumulative distribution function, embedding
scipy.stats.norm.cdf used by the pricing code: the integral of the standard
normal density over all reals up to x. -/
noncomputable def normCdf (x : ℝ) : ℝ := ∫ t in Iic x, gaussianPDFReal 0 1 t

/-- The standard normal density is even. -/
lemma gaussianPDFReal_std_neg (t : ℝ) :
    gaussianPDFReal 0 1 (-t) = gaussianPDFReal 0 1 t := by
  simp [gaussianPDFReal, neg_sq]

/-- Reflection identity of the standard normal CDF: N(-x) = 1 - N(x). -/
lemma normCdf_neg (x : ℝ) : normCdf (-x) = 1 - normCdf x := by
  have hint : Integrable (gaussianPDFReal 0 1) := integrable_gaussianPDFReal 0 1
  have h1 : normCdf (-x) = ∫ t in Ioi x, gaussianPDFReal 0 1 t := by
    rw [normCdf]
    calc ∫ t in Iic (-x), gaussianPDFReal 0 1 t
        = ∫ t in Iic (-x), gaussianPDFReal 0 1 (-t) :=
          (setIntegral_congr_fun measurableSet_Iic
            (fun t _ => gaussianPDFReal_std_neg t)).symm
      _ = ∫ t in Ioi (-(-x)), gaussianPDFReal 0 1 t :=
          integral_comp_neg_Iic (-x) (gaussianPDFReal 0 1)
      _ = ∫ t in Ioi x, gaussianPDFReal 0 1 t := by rw [neg_neg]
  have h2 : normCdf x + ∫ t in Ioi x, gaussianPDFReal 0 1 t = 1 := by
    rw [normCdf, intervalIntegral.integral_Iic_add_Ioi hint.integrableOn hint.integrableOn]
    exact integral_gaussianPDFReal_eq_one 0 one_ne_zero
  linarith [h1, h2]

/-- d1 from option-payoffs-app.py line 479 (and the identically written
occurrences at lines 578, 662, 702, ...):
1/(vol*np.sqrt(T)) * (np.log(S/K) + (r + vol**2/2)*T). -/
noncomputable def d1 (S K r vol T : ℝ) : ℝ :=
  1 / (vol * Real.sqrt T) * (Real.log (S / K) + (r + vol ^ 2 / 2) * T)

/-- d2 from option-payoffs-app.py line 480: d1 - vol*np.sqrt(T). -/
noncomputable def d2 (S K r vol T : ℝ) : ℝ :=
  d1 S K r vol T - vol * Real.sqrt T

/-- call_price from option-payoffs-app.py line 482:
S0 * norm.cdf(d1) - K * np.exp(-r*T) * norm.cdf(d2). -/
noncomputable def call_price (S K r vol T : ℝ) : ℝ :=
  S * normCdf (d1 S K r vol T) - K * Real.exp (-r * T) * normCdf (d2 S K r vol T)

/-- put_price from option-payoffs-app.py line 483:
K * np.exp(-r*T) * norm.cdf(-d2) - S0 * norm.cdf(-d1). -/
noncomputable def put_price (S K r vol T : ℝ) : ℝ :=
  K * Real.exp (-r * T) * normCdf (-d2 S K r vol T) - S * normCdf (-d1 S K r vol T)

/-- Spec formulation of d1, written from the spec sentence
"d1 = (ln(S/K) + (r + vol^2/2)*T) / (vol*sqrt(T))" for the refinement
claim comparing it with the code's d1. -/
noncomputable def d1_spec (S K r vol T : ℝ) : ℝ :=
  (Real.log (S / K) + (r + vol ^ 2 / 2) * T) / (vol * Real.sqrt T)

/-- Spec formulation of d2: d1 - vol*sqrt(T). -/
noncomputable def d2_spec (S K r vol T : ℝ) : ℝ :=
  d1_spec S K r vol T - vol * Real.sqrt T

/-- Spec formulation of the call price: S*N(d1) - K*e^(-r*T)*N(d2). -/
noncomputable def call_price_spec (S K r vol T : ℝ) : ℝ :=
  S * normCdf (d1_spec S K r vol T)
    - K * Real.exp (-r * T) * normCdf (d2_spec S K r vol T)

/-- Spec formulation of the put price: K*e^(-r*T)*N(-d2) - S*N(-d1). -/
noncomputable def put_price_spec (S K r vol T : ℝ) : ℝ :=
  K * Real.exp (-r * T) * normCdf (-d2_spec S K r vol T)
    - S * normCdf (-d1_spec S K r vol T)

/-- Checked real division: none exactly when the scripts would divide by zero. -/
noncomputable def cdiv (a b : ℝ) : Option ℝ :=
  if b = 0 then none else some (a / b)

/-- The d1 expression with the division it performs made explicit as checked
division: the source computes 1/(vol*np.sqrt(T)) with no guard. -/
noncomputable def d1Checked (S K r vol T : ℝ) : Option ℝ :=
  (cdiv 1 (vol * Real.sqrt T)).map
    (fun q => q * (Real.log (S / K) + (r + vol ^ 2 / 2) * T))

/-- The Put-Call Parity page call price (option-payoffs-app.py lines 479-482)
with its unguarded division tracked: no branch of that page tests T before
computing d1. -/
noncomputable def call_priceChecked (S K r vol T : ℝ) : Option ℝ :=
  (d1Checked S K r vol T).map
    (fun a => S * normCdf a
      - K * Real.exp (-r * T) * normCdf (a - vol * Real.sqrt T))

/-- One iteration of the time-decay loop of option-payoffs-app.py lines
693-704 for the at-the-money call: the loop body tests T == 0 first and
returns the intrinsic value max(S0 - K, 0) there, dividing only in the
else branch. -/
noncomputable def atm_call_step (S0 K r vol T : ℝ) : Option ℝ :=
  if T = 0 then some (max (S0 - K) 0)
  else
    (d1Checked S0 K r vol T).map
      (fun a => S0 * normCdf a
        - K * Real.exp (-r * T) * normCdf (a - vol * Real.sqrt T))

/-- The stock price grid of options-EN.py line 249: np.arange(40, 160, 1). -/
noncomputable def stock_prices : List ℝ := (List.range 120).map (fun i => 40 + (i : ℝ))

/-- Long call payoff array, options-EN.py line 256:
np.maximum(stock_prices - strike_price, 0). -/
noncomputable def longCallPayoffs (K : ℝ) : List ℝ :=
  stock_prices.map (fun S => max (S - K) 0)

/-- Long put payoff array, options-EN.py line 266:
np.maximum(strike_price - stock_prices, 0). -/
noncomputable def longPutPayoffs (K : ℝ) : List ℝ :=
  stock_prices.map (fun S => max (K - S) 0)

/-- Long call profit at one grid point, options-EN.py line 257:
payoffs - premium. -/
noncomputable def longCallProfit (S K prem : ℝ) : ℝ := max (S - K) 0 - prem

/-- Long put profit at one grid point, options-EN.py line 267:
payoffs - premium. -/
noncomputable def longPutProfit (S K prem : ℝ) : ℝ := max (K - S) 0 - prem

/-- Short call payoff at one grid point, options-EN.py line 260:
np.minimum(strike_price - stock_prices, 0). -/
noncomputable def shortCallPayoff (S K : ℝ) : ℝ := min (K - S) 0

/-- Short call profit at one grid point, options-EN.py line 261:
-np.maximum(stock_prices - strike_price, 0) + premium. -/
noncomputable def shortCallProfit (S K prem : ℝ) : ℝ := -max (S - K) 0 + prem

/-- Short put payoff at one grid point, options-EN.py line 271:
-np.maximum(strike_price - stock_prices, 0) + premium. -/
noncomputable def shortPutPayoff (S K prem : ℝ) : ℝ := -max (K - S) 0 + prem

/-- Short put profit at one grid point, options-EN.py line 272:
-np.maximum(strike_price - stock_prices, 0) + premium. -/
noncomputable def shortPutProfit (S K prem : ℝ) : ℝ := -max (K - S) 0 + prem

/-- Short put payoff array over the whole grid, options-EN.py line 271. -/
noncomputable def shortPutPayoffs (K prem : ℝ) : List ℝ :=
  stock_prices.map (fun S => shortPutPayoff S K prem)

/-- Short put profit array over the whole grid, options-EN.py line 272. -/
noncomputable def shortPutProfits (K prem : ℝ) : List ℝ :=
  stock_prices.map (fun S => shortPutProfit S K prem)

/-- C3: for every asset price S (each element of a price array goes through the
same scalar formula) and every strike K, call_payoff(S,K) - put_payoff(S,K)
= S - K: put-call payoff parity at expiry. -/
theorem call_put_payoff_parity (S K : ℝ) :
    call_payoff S K - put_payoff S K = S - K := by
  unfold call_payoff put_payoff
  rcases le_total S K with h | h
  · rw [max_eq_right (sub_nonpos.2 h), max_eq_left (sub_nonneg.2 h)]; ring
  · rw [max_eq_left (sub_nonneg.2 h), max_eq_right (sub_nonpos.2 h)]; ring

/-- C7: for every asset price S and strike K, both call_payoff(S,K) and
put_payoff(S,K) are nonnegative. -/
theorem payoffs_nonneg (S K : ℝ) :
    0 ≤ call_payoff S K ∧ 0 ≤ put_payoff S K :=
  ⟨le_max_right _ _, le_max_right _ _⟩

/-- C5: call_payoff(S,K) = max(S-K,0) and put_payoff(S,K) = max(K-S,0) for
every S and K, and the long-call and long-put payoff arrays of the Option
Payoffs page of options-EN.py are the elementwise application of the same
formulas over the stock price grid. -/
theorem payoff_formulas :
    (∀ S K : ℝ, call_payoff S K = max (S - K) 0 ∧ put_payoff S K = max (K - S) 0) ∧
    (∀ K : ℝ, longCallPayoffs K = stock_prices.map (fun S => call_payoff S K) ∧
      longPutPayoffs K = stock_prices.map (fun S => put_payoff S K)) :=
  ⟨fun _ _ => ⟨rfl, rfl⟩, fun _ => ⟨rfl, rfl⟩⟩

/-- C6: binary_call_payoff is the indicator of S > K and binary_put_payoff is
the indicator of S < K: each returns 1 exactly when its strict inequality
holds and 0 exactly when it fails. -/
theorem binary_payoffs_indicator (S K : ℝ) :
    (binary_call_payoff S K = 1 ↔ S > K) ∧
    (binary_call_payoff S K = 0 ↔ ¬S > K) ∧
    (binary_put_payoff S K = 1 ↔ S < K) ∧
    (binary_put_payoff S K = 0 ↔ ¬S < K) := by
  unfold binary_call_payoff binary_put_payoff
  refine ⟨?_, ?_, ?_, ?_⟩ <;> split_ifs with h <;> simp [h, gt_iff_lt]

/-- C8: the binary call and binary put indicators sum to 1 when S is not equal
to K and to 0 when S = K: exactly at the money both binaries pay 0, since
both inequalities are strict. -/
theorem binary_payoffs_sum (S K : ℝ) :
    binary_call_payoff S K + binary_put_payoff S K = if S = K then 0 else 1 := by
  unfold binary_call_payoff binary_put_payoff
  rcases lt_trichotomy S K with h | h | h
  · simp [h, not_lt.2 h.le, ne_of_lt h]
  · simp [h, lt_irrefl]
  · simp [h, not_lt.2 h.le, ne_of_gt h]

/-- C9: the straddle payoff of the Option Strategies page, the sum of the call
and put payoffs at the same strike, equals the absolute difference between the
asset price and the strike. -/
theorem straddle_abs_diff (S K : ℝ) :
    straddle_payoff S K = |S - K| ∧ call_payoff S K + put_payoff S K = |S - K| := by
  have h : call_payoff S K + put_payoff S K = |S - K| := by
    unfold call_payoff put_payoff
    rcases le_total S K with h | h
    · rw [max_eq_right (sub_nonpos.2 h), max_eq_left (sub_nonneg.2 h),
        abs_of_nonpos (sub_nonpos.2 h)]
      ring
    · rw [max_eq_left (sub_nonneg.2 h), max_eq_right (sub_nonpos.2 h),
        abs_of_nonneg (sub_nonneg.2 h)]
      ring
  exact ⟨h, h⟩

/-- C10: on the Option Payoffs page of options-EN.py the Short Put payoff
already includes the premium and coincides pointwise and arraywise with the
Short Put profit (both equal premium - max(K-S,0)); for Long Call, Long Put
and Short Call the payoff excludes the premium and differs from the profit
whenever the premium is nonzero. -/
theorem short_put_payoff_includes_premium (S K prem : ℝ) :
    shortPutPayoff S K prem = prem - max (K - S) 0 ∧
    shortPutPayoff S K prem = shortPutProfit S K prem ∧
    shortPutPayoffs K prem = shortPutProfits K prem ∧
    (prem ≠ 0 →
      max (S - K) 0 ≠ longCallProfit S K prem ∧
      max (K - S) 0 ≠ longPutProfit S K prem ∧
      shortCallPayoff S K ≠ shortCallProfit S K prem) := by
  refine ⟨by unfold shortPutPayoff; ring, rfl, rfl, fun hp => ⟨?_, ?_, ?_⟩⟩
  · intro h; apply hp
    unfold longCallProfit at h
    linarith
  · intro h; apply hp
    unfold longPutProfit at h
    linarith
  · intro h; apply hp
    unfold shortCallPayoff shortCallProfit at h
    rcases le_total S K with hsk | hsk
    · rw [min_eq_right (sub_nonneg.2 hsk), max_eq_right (sub_nonpos.2 hsk)] at h
      linarith
    · rw [min_eq_left (sub_nonpos.2 hsk), max_eq_left (sub_nonneg.2 hsk)] at h
      linarith

/-- Witness for C10 at S = 90, K = 100, premium = 10. -/
theorem short_put_payoff_includes_premium_witness :
    shortPutPayoff 90 100 10 = shortPutProfit 90 100 10 ∧
    max ((90 : ℝ) - 100) 0 ≠ longCallProfit 90 100 10 :=
  ⟨(short_put_payoff_includes_premium 90 100 10).2.1,
   ((short_put_payoff_includes_premium 90 100 10).2.2.2 (by norm_num)).1⟩

/-- C4: for S > 0, K > 0, any rate r, vol > 0 and T > 0, the pricing code
computes exactly the standard Black-Scholes d1/d2 formulation: the code's
d1, d2, call price and put price agree with the spec's
d1 = (ln(S/K) + (r + vol^2/2)*T)/(vol*sqrt(T)), d2 = d1 - vol*sqrt(T),
call = S*N(d1) - K*e^(-rT)*N(d2), put = K*e^(-rT)*N(-d2) - S*N(-d1). -/
theorem bs_code_matches_spec (S K r vol T : ℝ) (_hS : 0 < S) (_hK : 0 < K)
    (_hvol : 0 < vol) (_hT : 0 < T) :
    d1 S K r vol T = d1_spec S K r vol T ∧
    d2 S K r vol T = d2_spec S K r vol T ∧
    call_price S K r vol T = call_price_spec S K r vol T ∧
    put_price S K r vol T = put_price_spec S K r vol T := by
  have h1 : d1 S K r vol T = d1_spec S K r vol T := by
    unfold d1 d1_spec
    rw [one_div, div_eq_mul_inv]
    exact mul_comm _ _
  have h2 : d2 S K r vol T = d2_spec S K r vol T := by
    unfold d2 d2_spec
    rw [h1]
  refine ⟨h1, h2, ?_, ?_⟩
  · unfold call_price call_price_spec
    rw [h1, h2]
  · unfold put_price put_price_spec
    rw [h1, h2]

/-- Witness for C4 at S = 100, K = 95, r = 1/20, vol = 1/5, T = 1. -/
theorem bs_code_matches_spec_witness :
    d1 100 95 (1/20) (1/5) 1 = d1_spec 100 95 (1/20) (1/5) 1 ∧
    call_price 100 95 (1/20) (1/5) 1 = call_price_spec 100 95 (1/20) (1/5) 1 :=
  ⟨(bs_code_matches_spec 100 95 (1/20) (1/5) 1 (by norm_num) (by norm_num)
      (by norm_num) (by norm_num)).1,
   (bs_code_matches_spec 100 95 (1/20) (1/5) 1 (by norm_num) (by norm_num)
      (by norm_num) (by norm_num)).2.2.1⟩

/-- C1: on the Put-Call Parity page, with the fixed volatility 0.2, the
Black-Scholes call and put prices satisfy put-call parity exactly over the
reals: call - put = S - K*e^(-r*T), via N(-x) = 1 - N(x). -/
theorem parity_page_put_call_parity (S K r T : ℝ) (_hS : 0 < S) (_hK : 0 < K)
    (_hT : 0 < T) :
    call_price S K r (0.2) T - put_price S K r (0.2) T
      = S - K * Real.exp (-r * T) := by
  unfold call_price put_price
  rw [normCdf_neg (d1 S K r 0.2 T), normCdf_neg (d2 S K r 0.2 T)]
  ring

/-- Witness for C1 at S = 100, K = 95, r = 1/20, T = 1. -/
theorem parity_page_put_call_parity_witness :
    call_price 100 95 (1/20) (0.2) 1 - put_price 100 95 (1/20) (0.2) 1
      = 100 - 95 * Real.exp (-(1/20) * 1) :=
  parity_page_put_call_parity 100 95 (1/20) 1 (by norm_num) (by norm_num)
    (by norm_num)

/-- C2 counterexample: the time-decay loop of option-payoffs-app.py lines
693-704 does test T == 0 before dividing by vol*sqrt(T): at T = 0 its
embedding returns the intrinsic value max(S0-K, 0) without reaching the
division, while the unguarded parity-page expression hits division by zero
there; this refutes the claim that no evaluation path in the scripts tests
for T = 0 before dividing. -/
theorem time_decay_guards_T0 :
    atm_call_step 100 110 (1/20) (1/5) 0 = some 0 ∧
    call_priceChecked 100 110 (1/20) (1/5) 0 = none := by
  constructor
  · unfold atm_call_step
    rw [if_pos rfl, max_eq_right (by norm_num : (100 : ℝ) - 110 ≤ 0)]
  · unfold call_priceChecked d1Checked cdiv
    rw [Real.sqrt_zero, mul_zero ((1 : ℝ)/5), if_pos rfl]
    rfl

/-- C2 amended: the payoff and pricing computations are pure total functions
over their numeric domains, with division by zero at T = 0 the only edge
case; that division is unguarded in the Black-Scholes pricing expressions
(the checked embedding of the parity-page code is none at T = 0 and succeeds
whenever vol > 0 and T > 0), while the time-decay loop does test T == 0
before dividing and is total for every T ≥ 0. -/
theorem division_edge_case (S K r vol T : ℝ) (hvol : 0 < vol) :
    call_priceChecked S K r vol 0 = none ∧
    (0 < T → ∃ y, call_priceChecked S K r vol T = some y) ∧
    (0 ≤ T → ∃ y, atm_call_step S K r vol T = some y) := by
  refine ⟨?_, fun hT => ?_, fun hT => ?_⟩
  · unfold call_priceChecked d1Checked cdiv
    rw [Real.sqrt_zero, mul_zero vol, if_pos rfl]
    rfl
  · have hne : vol * Real.sqrt T ≠ 0 :=
      mul_ne_zero (ne_of_gt hvol) (ne_of_gt (Real.sqrt_pos.2 hT))
    unfold call_priceChecked d1Checked cdiv
    rw [if_neg hne]
    exact ⟨_, rfl⟩
  · by_cases h0 : T = 0
    · refine ⟨max (S - K) 0, ?_⟩
      unfold atm_call_step
      rw [if_pos h0]
    · have hT' : 0 < T := lt_of_le_of_ne hT (Ne.symm h0)
      have hne : vol * Real.sqrt T ≠ 0 :=
        mul_ne_zero (ne_of_gt hvol) (ne_of_gt (Real.sqrt_pos.2 hT'))
      unfold atm_call_step d1Checked cdiv
      rw [if_neg h0, if_neg hne]
      exact ⟨_, rfl⟩

/-- Witness for the amended C2 at S = 100, K = 110, r = 1/20, vol = 1/5. -/
theorem division_edge_case_witness :
    call_priceChecked 100 110 (1/20) (1/5) 0 = none ∧
    (∃ y, atm_call_step 100 110 (1/20) (1/5) 1 = some y) :=
  ⟨(division_edge_case 100 110 (1/20) (1/5) 1 (by norm_num)).1,
   (division_edge_case 100 110 (1/20) (1/5) 1 (by norm_num)).2.2 (by norm_num)⟩

end OptionPayoffs
